import Mathlib

/-!
Verification of the go-user-api authentication core.

This file is a shallow embedding of the auth-relevant slice of the
repository: the JWT service (`internal/service/jwt_service.go`), the auth
middleware (`internal/middleware/middleware.go`), the user service
(`internal/service/user_service.go`), the error taxonomy
(`pkg/errors/errors.go`) and the user repository
(`internal/repository/user_repository.go`).

Modelling conventions:
* Machine integers and timestamps are `Int` (seconds); `time.Now()` is an
  explicit `now : Int` parameter.
* The HMAC signature is modelled symbolically as a perfect MAC: a signature
  value is the triple (algorithm, key, payload) and verification is equality
  with the recomputed triple.  Encoding/decoding of the compact JWT form is
  modelled by the `TokenString` inductive: a string either fails to decode
  (`malformed`) or decodes to an (alg, claims, sig) triple.
* bcrypt (`golang.org/x/crypto/bcrypt`) is external; password hashing and
  checking are passed in as opaque functions `hashPw`/`checkPw`, exactly as
  the service code treats them (a boolean comparison result).
* The GORM-backed repository is modelled as a list of user rows; the soft
  delete default scope (`deleted_at IS NULL`) is the `!u.deleted` filter in
  every lookup.
* The golang-jwt v5 parser reports failures through sentinel errors that
  `handleParseError` inspects with `errors.Is`.  The `ParseFlags` record
  carries, for a given parse failure, which of the four sentinels
  (`jwt.ErrTokenExpired`, `jwt.ErrSignatureInvalid`, `jwt.ErrTokenMalformed`,
  `jwt.ErrTokenNotValidYet`) the error chain matches.  In v5 a keyfunc
  error (the wrong-algorithm branch of `ValidateToken`) is wrapped as
  `newError("error while executing keyfunc", ErrTokenUnverifiable, err)`:
  the chain contains `jwt.ErrTokenUnverifiable` and the AppError returned
  by the keyfunc, but none of the four sentinels, so all four flags are
  false.
-/

namespace GoUserApi

/-! ### Error taxonomy (pkg/errors/errors.go) -/

/-- AppError from pkg/errors/errors.go.  The wrapped `Err error` field is
dropped: `WithError` only attaches the original error for logging and does
not change the classification (code / status / message). -/
structure AppError where
  code : Int
  httpStatus : Int
  message : String
  detail : String := ""
  deriving DecidableEq, Repr

def AppError.withDetail (e : AppError) (d : String) : AppError :=
  { e with detail := d }

def CodeInternalError : Int := 10006
def CodeInvalidToken : Int := 11001
def CodeTokenExpired : Int := 11002
def CodeInvalidPassword : Int := 11003
def CodeInvalidCredential : Int := 11004
def CodeTokenMalformed : Int := 11005
def CodeTokenNotFound : Int := 11006
def CodeUserNotFound : Int := 20001
def CodeUserDisabled : Int := 20003
def CodeEmailAlreadyUsed : Int := 20004
def CodeUsernameExists : Int := 20005

def ErrInternalServer : AppError :=
  { code := CodeInternalError, httpStatus := 500, message := "服务器内部错误" }

def ErrInvalidToken : AppError :=
  { code := CodeInvalidToken, httpStatus := 401, message := "无效的访问令牌" }

def ErrTokenExpired : AppError :=
  { code := CodeTokenExpired, httpStatus := 401, message := "访问令牌已过期" }

def ErrInvalidPassword : AppError :=
  { code := CodeInvalidPassword, httpStatus := 401, message := "密码错误" }

def ErrInvalidCredential : AppError :=
  { code := CodeInvalidCredential, httpStatus := 401, message := "用户名或密码错误" }

def ErrTokenMalformed : AppError :=
  { code := CodeTokenMalformed, httpStatus := 401, message := "令牌格式错误" }

def ErrTokenNotFound : AppError :=
  { code := CodeTokenNotFound, httpStatus := 401, message := "请提供访问令牌" }

def ErrUserNotFound : AppError :=
  { code := CodeUserNotFound, httpStatus := 404, message := "用户不存在" }

def ErrUserDisabled : AppError :=
  { code := CodeUserDisabled, httpStatus := 403, message := "用户已被禁用" }

def ErrEmailAlreadyUsed : AppError :=
  { code := CodeEmailAlreadyUsed, httpStatus := 409, message := "该邮箱已被注册" }

def ErrUsernameExists : AppError :=
  { code := CodeUsernameExists, httpStatus := 409, message := "该用户名已被使用" }

/-! ### Data model (internal/model/user.go, internal/model/base.go) -/

/-- User row (model.User embedding model.BaseModel).  `deleted` is true when
the gorm.DeletedAt soft-delete marker is set; the GORM default scope excludes
such rows from every lookup below.  Profile fields that no auth-relevant
operation reads (avatar, phone, bio, gender, birthday, timestamps) are
omitted. -/
structure User where
  id : String
  username : String
  email : String
  password : String
  nickname : String
  status : Int
  role : String
  lastLoginAt : Option Int := Option.none
  lastLoginIP : String := ""
  deleted : Bool := false
  deriving DecidableEq, Repr

def UserStatusDisabled : Int := 0
def UserStatusActive : Int := 1
def UserStatusInactive : Int := 2

def RoleUser : String := "user"
def RoleAdmin : String := "admin"

def User.IsActive (u : User) : Bool := u.status == UserStatusActive

def User.IsDisabled (u : User) : Bool := u.status == UserStatusDisabled

def User.IsAdmin (u : User) : Bool := u.role == RoleAdmin

/-- UserResponse: the sanitized projection returned by User.ToResponse
(password hash excluded). -/
structure UserResponse where
  id : String
  username : String
  email : String
  nickname : String
  status : Int
  role : String
  lastLoginAt : Option Int
  deriving DecidableEq, Repr

def User.toResponse (u : User) : UserResponse :=
  { id := u.id, username := u.username, email := u.email,
    nickname := u.nickname, status := u.status, role := u.role,
    lastLoginAt := u.lastLoginAt }

/-! ### Token model (internal/service/jwt_service.go) -/

def TokenTypeAccess : String := "access"
def TokenTypeRefresh : String := "refresh"

/-- TokenClaims: the custom claims plus the jwt.RegisteredClaims that
generateToken populates.  The registered timestamps are `*jwt.NumericDate`
in Go, hence `Option Int` here (absent in a foreign token ⇒ `none`). -/
structure TokenClaims where
  user_id : String
  username : String
  email : String
  role : String
  token_type : String
  issuer : String
  subject : String
  issuedAt : Option Int
  expiresAt : Option Int
  notBefore : Option Int
  deriving DecidableEq, Repr

def TokenClaims.IsAccessToken (c : TokenClaims) : Bool :=
  c.token_type == TokenTypeAccess

def TokenClaims.IsRefreshToken (c : TokenClaims) : Bool :=
  c.token_type == TokenTypeRefresh

/-- Signing algorithm named by a token header.  The keyfunc in
ValidateToken accepts exactly the `*jwt.SigningMethodHMAC` family. -/
inductive Alg where
  | HS256
  | HS384
  | HS512
  | RS256
  | ES256
  | noneAlg
  | other (name : String)
  deriving DecidableEq, Repr

def Alg.isHMAC : Alg → Bool
  | .HS256 => true
  | .HS384 => true
  | .HS512 => true
  | _ => false

/-- Symbolic signature value: HMAC is modelled as a perfect MAC, so a
signature records the algorithm, key and payload it was computed over and
verification is equality with the recomputed triple. -/
structure Sig where
  alg : Alg
  key : String
  payload : TokenClaims
  deriving DecidableEq, Repr

/-- A compact JWT string, as seen by the parser: either it fails to decode
(not three dot-separated parts, undecodable base64/JSON, unknown field
types, ...) or it decodes to a header algorithm, a claim set and a
signature. -/
inductive TokenString where
  | malformed
  | token (alg : Alg) (claims : TokenClaims) (sig : Sig)
  deriving DecidableEq, Repr

/-- JWTConfig (internal/config, in src/unnamed/part_001): the signing
secret, the issuer string, and the two token expiry times stored as whole
hours (`access_token_expire` / `refresh_token_expire`). -/
structure JWTConfig where
  secret : String
  issuer : String
  accessTokenExpire : Int
  refreshTokenExpire : Int
  deriving DecidableEq, Repr

/-- One hour, in the seconds the model measures time in (time.Hour in Go,
where time.Duration is a nanosecond count; every duration the jwt service
consumes or reports is used at second granularity or coarser). -/
def secondsPerHour : Int := 3600

/-- JWTConfig.AccessTokenExpireDuration:
`time.Duration(c.AccessTokenExpire) * time.Hour`. -/
def JWTConfig.AccessTokenExpireDuration (c : JWTConfig) : Int :=
  c.accessTokenExpire * secondsPerHour

/-- JWTConfig.RefreshTokenExpireDuration:
`time.Duration(c.RefreshTokenExpire) * time.Hour`. -/
def JWTConfig.RefreshTokenExpireDuration (c : JWTConfig) : Int :=
  c.refreshTokenExpire * secondsPerHour

/-- generateToken (jwt_service.go:104-137): builds the claim set from the
user, signs it with HS256 over the configured secret.  SignedString only
fails on a marshalling/entropy failure, which has no counterpart in the
model, so issuance is total. -/
def generateToken (cfg : JWTConfig) (user : User) (tokenType : String)
    (expiration : Int) (now : Int) : TokenString :=
  let claims : TokenClaims :=
    { user_id := user.id
      username := user.username
      email := user.email
      role := user.role
      token_type := tokenType
      issuer := cfg.issuer
      subject := user.id
      issuedAt := Option.some now
      expiresAt := Option.some (now + expiration)
      notBefore := Option.some now }
  TokenString.token Alg.HS256 claims (Sig.mk Alg.HS256 cfg.secret claims)

def GenerateAccessToken (cfg : JWTConfig) (user : User) (now : Int) : TokenString :=
  generateToken cfg user TokenTypeAccess cfg.AccessTokenExpireDuration now

def GenerateRefreshToken (cfg : JWTConfig) (user : User) (now : Int) : TokenString :=
  generateToken cfg user TokenTypeRefresh cfg.RefreshTokenExpireDuration now

/-- Which of the four jwt sentinel errors checked by handleParseError the
parse error chain matches (via errors.Is). -/
structure ParseFlags where
  isExpired : Bool
  isSigInvalid : Bool
  isMalformed : Bool
  isNotYetValid : Bool
  deriving DecidableEq, Repr

/-- jwt.ParseWithClaims (golang-jwt v5) with the keyfunc of
ValidateToken (jwt_service.go:143-149), at wall-clock `now`:
1. decode: a malformed string fails with `jwt.ErrTokenMalformed`;
2. keyfunc: a non-HMAC method makes the keyfunc return the app-level
   `ErrTokenMalformed` AppError, which v5 wraps together with
   `jwt.ErrTokenUnverifiable` — the chain matches none of the four
   sentinels (an unregistered algorithm name fails the same way before the
   keyfunc runs);
3. signature: verification against the recomputed MAC, failing with
   `jwt.ErrSignatureInvalid`;
4. claims validation (no leeway, `WithIssuedAt`/`WithIssuer` not enabled,
   so `iat` and `iss` are never checked; `exp`/`nbf` are optional): the
   token is current iff `now < exp` and `nbf ≤ now`; the violated checks
   are joined into one error chain. -/
def parseWithClaims (secret : String) (now : Int) (ts : TokenString) :
    Except ParseFlags TokenClaims :=
  match ts with
  | .malformed => .error ⟨false, false, true, false⟩
  | .token alg claims sig =>
    if alg.isHMAC = false then
      .error ⟨false, false, false, false⟩
    else if sig = Sig.mk alg secret claims then
      let expiredErr : Bool :=
        match claims.expiresAt with
        | Option.none => false
        | Option.some e => decide (e ≤ now)
      let nbfErr : Bool :=
        match claims.notBefore with
        | Option.none => false
        | Option.some n => decide (now < n)
      if expiredErr || nbfErr then .error ⟨expiredErr, false, false, nbfErr⟩
      else .ok claims
    else .error ⟨false, true, false, false⟩

/-- handleParseError (jwt_service.go:196-220): the `errors.Is` cascade.
The final branch is `ErrInvalidToken.WithError(err)`; the dropped wrapped
error does not change the classification. -/
def handleParseError (f : ParseFlags) : AppError :=
  if f.isExpired then ErrTokenExpired
  else if f.isSigInvalid then ErrInvalidToken.withDetail "令牌签名无效"
  else if f.isMalformed then ErrTokenMalformed
  else if f.isNotYetValid then ErrInvalidToken.withDetail "令牌尚未生效"
  else ErrInvalidToken

/-- ValidateToken (jwt_service.go:139-168).  On a successful parse the v5
parser has already set token.Valid and the claims cast cannot fail, so the
two residual checks in the Go code are identities here. -/
def ValidateToken (secret : String) (now : Int) (ts : TokenString) :
    Except AppError TokenClaims :=
  match parseWithClaims secret now ts with
  | .error f => .error (handleParseError f)
  | .ok claims => .ok claims

/-! ### Repository (internal/repository/user_repository.go) -/

/-- The users table.  Every query below applies the GORM soft-delete default
scope: rows with `deleted_at` set are invisible. -/
structure DB where
  users : List User
  deriving Repr

def DB.getByID (db : DB) (id : String) : Except AppError User :=
  match db.users.find? (fun u => u.id == id && !u.deleted) with
  | Option.some u => .ok u
  | Option.none => .error ErrUserNotFound

def DB.getByUsernameOrEmail (db : DB) (usernameOrEmail : String) :
    Except AppError User :=
  match db.users.find?
      (fun u => (u.username == usernameOrEmail || u.email == usernameOrEmail)
        && !u.deleted) with
  | Option.some u => .ok u
  | Option.none => .error ErrUserNotFound

def DB.existsByUsername (db : DB) (username : String) : Bool :=
  db.users.any (fun u => u.username == username && !u.deleted)

def DB.existsByEmail (db : DB) (email : String) : Bool :=
  db.users.any (fun u => u.email == email && !u.deleted)

def DB.create (db : DB) (u : User) : DB :=
  { users := db.users ++ [u] }

def DB.updatePassword (db : DB) (id : String) (hashedPassword : String) : DB :=
  { users := db.users.map
      (fun u => if u.id == id && !u.deleted then { u with password := hashedPassword } else u) }

def DB.updateLastLogin (db : DB) (id : String) (now : Int) (ip : String) : DB :=
  { users := db.users.map
      (fun u => if u.id == id && !u.deleted then
          { u with lastLoginAt := Option.some now, lastLoginIP := ip }
        else u) }

/-! ### DTOs (internal/model/dto.go) -/

structure RegisterRequest where
  username : String
  email : String
  password : String
  nickname : String := ""
  deriving DecidableEq, Repr

structure LoginRequest where
  username : String
  password : String
  deriving DecidableEq, Repr

structure ChangePasswordRequest where
  oldPassword : String
  newPassword : String
  deriving DecidableEq, Repr

structure LoginResponse where
  accessToken : TokenString
  refreshToken : TokenString
  tokenType : String
  expiresIn : Int
  user : UserResponse
  deriving DecidableEq, Repr

/-- RefreshTokenResponse.  The DTO has an omitempty refresh_token field
(`Option` here); userService.RefreshToken never sets it. -/
structure RefreshTokenResponse where
  accessToken : TokenString
  refreshToken : Option TokenString := Option.none
  tokenType : String
  expiresIn : Int
  deriving DecidableEq, Repr

/-! ### User service (internal/service/user_service.go)

`checkPw old hash` is bcrypt.CompareHashAndPassword returning no error;
`hashPw` is bcrypt.GenerateFromPassword (its entropy-failure branch,
mapped to ErrInternalServer in Go, has no counterpart in the model).
State-changing operations return the resulting store alongside the
result, so that "no write happened" is visible in the return value.
The best-effort UpdateLastLogin write on login success is included; its
failure branch (logged and swallowed) does not alter the result. -/

/-- userService.Register (user_service.go:79-139). -/
def Register (hashPw : String → String) (newId : String) (db : DB)
    (req : RegisterRequest) : DB × Except AppError User :=
  if db.existsByUsername req.username then (db, .error ErrUsernameExists)
  else if db.existsByEmail req.email then (db, .error ErrEmailAlreadyUsed)
  else
    let hashedPassword := hashPw req.password
    let nickname := if req.nickname == "" then req.username else req.nickname
    let user : User :=
      { id := newId, username := req.username, email := req.email,
        password := hashedPassword, nickname := nickname,
        status := UserStatusActive, role := RoleUser }
    (db.create user, .ok user)

/-- userService.Login (user_service.go:143-206). -/
def Login (checkPw : String → String → Bool) (cfg : JWTConfig) (db : DB)
    (now : Int) (req : LoginRequest) (clientIP : String) :
    DB × Except AppError LoginResponse :=
  match db.getByUsernameOrEmail req.username with
  | .error e =>
    if e.code == CodeUserNotFound then (db, .error ErrInvalidCredential)
    else (db, .error e)
  | .ok user =>
    if user.IsDisabled then (db, .error ErrUserDisabled)
    else if !(checkPw req.password user.password) then (db, .error ErrInvalidCredential)
    else
      let accessToken := GenerateAccessToken cfg user now
      let refreshTok := GenerateRefreshToken cfg user now
      (db.updateLastLogin user.id now clientIP,
        .ok { accessToken := accessToken, refreshToken := refreshTok,
              tokenType := "Bearer",
              expiresIn := cfg.AccessTokenExpireDuration,
              user := user.toResponse })

/-- userService.UpdatePassword (user_service.go:269-303). -/
def UpdatePassword (checkPw : String → String → Bool) (hashPw : String → String)
    (db : DB) (id : String) (req : ChangePasswordRequest) :
    DB × Except AppError Unit :=
  match db.getByID id with
  | .error e => (db, .error e)
  | .ok user =>
    if !(checkPw req.oldPassword user.password) then (db, .error ErrInvalidPassword)
    else (db.updatePassword id (hashPw req.newPassword), .ok ())

/-- userService.RefreshToken (user_service.go:347-388). -/
def RefreshToken (cfg : JWTConfig) (db : DB) (now : Int)
    (refreshTok : TokenString) : Except AppError RefreshTokenResponse :=
  match ValidateToken cfg.secret now refreshTok with
  | .error e => .error e
  | .ok claims =>
    if claims.token_type != TokenTypeRefresh then
      .error (ErrInvalidToken.withDetail "不是有效的刷新令牌")
    else
      match db.getByID claims.user_id with
      | .error e => .error e
      | .ok user =>
        if user.IsDisabled then .error ErrUserDisabled
        else
          .ok { accessToken := GenerateAccessToken cfg user now,
                tokenType := "Bearer",
                expiresIn := cfg.AccessTokenExpireDuration }

/-! ### Auth middleware (internal/middleware/middleware.go) -/

/-- The Authorization header of a request, as discriminated by
extractToken (middleware.go:521-541): absent (GetHeader returns ""),
present without the "Bearer " prefix, exactly "Bearer " (empty remainder),
or "Bearer " followed by a non-empty token string. -/
inductive Header where
  | missing
  | notBearer
  | bearerEmpty
  | bearerToken (ts : TokenString)
  deriving DecidableEq, Repr

def extractToken : Header → Except AppError TokenString
  | .missing => .error ErrTokenNotFound
  | .notBearer => .error (ErrTokenMalformed.withDetail "令牌必须以 Bearer 开头")
  | .bearerEmpty => .error ErrTokenNotFound
  | .bearerToken ts => .ok ts

/-- Outcome of the RequireAuth middleware: either the request is aborted
with an HTTP status and message (response.AbortWithUnauthorized sends
401), or the verified identity is attached to the request context and the
chain continues. -/
inductive AuthOutcome where
  | rejected (httpStatus : Int) (message : String)
  | authenticated (userID username role email : String)
  deriving DecidableEq, Repr

/-- AuthMiddleware.RequireAuth (middleware.go:402-442). -/
def RequireAuth (secret : String) (now : Int) (h : Header) : AuthOutcome :=
  match extractToken h with
  | .error e => .rejected 401 e.message
  | .ok ts =>
    match ValidateToken secret now ts with
    | .error e => .rejected 401 e.message
    | .ok claims =>
      if !claims.IsAccessToken then .rejected 401 "请使用访问令牌"
      else .authenticated claims.user_id claims.username claims.role claims.email

/-! ### Concrete fixtures used by the witnesses -/

def cfg0 : JWTConfig :=
  { secret := "test-secret", issuer := "go-user-api",
    accessTokenExpire := 24, refreshTokenExpire := 168 }

def alice : User :=
  { id := "u1", username := "alice", email := "alice@x.com",
    password := "hash-pw123456", nickname := "alice",
    status := UserStatusActive, role := "user" }

def dave : User :=
  { id := "u2", username := "dave", email := "dave@x.com",
    password := "hash-davepw", nickname := "dave",
    status := UserStatusDisabled, role := "user" }

def db0 : DB := { users := [alice, dave] }

/-- Fixture stand-in for bcrypt.CompareHashAndPassword: a hash matches
exactly the plaintext it was produced from. -/
def checkPw0 : String → String → Bool := fun p h => ("hash-" ++ p) == h

/-- Fixture stand-in for bcrypt.GenerateFromPassword. -/
def hashPw0 : String → String := fun p => "hash-" ++ p

def refreshClaims0 : TokenClaims :=
  { user_id := "u1", username := "alice", email := "alice@x.com",
    role := "user", token_type := "refresh", issuer := "go-user-api",
    subject := "u1", issuedAt := Option.some 0,
    expiresAt := Option.some 100, notBefore := Option.some 0 }

def accessClaims0 : TokenClaims :=
  { refreshClaims0 with token_type := "access" }

def refreshClaimsD : TokenClaims :=
  { refreshClaims0 with
    user_id := "u2"
    subject := "u2"
    username := "dave"
    email := "dave@x.com" }

/-! ### Helper lemmas -/

/-- A token signed with an HMAC algorithm over the configured secret, whose
expiry lies strictly in the future and whose not-before has passed,
validates to its own claim set. -/
theorem validateToken_ok_of_window (secret : String) (now : Int) (alg : Alg)
    (c : TokenClaims) (halg : alg.isHMAC = true) (e n : Int)
    (hexp : c.expiresAt = Option.some e) (hnbf : c.notBefore = Option.some n)
    (h1 : now < e) (h2 : n ≤ now) :
    ValidateToken secret now (TokenString.token alg c (Sig.mk alg secret c)) =
      Except.ok c := by
  have hne : ¬ (e ≤ now) := by omega
  have hnn : ¬ (now < n) := by omega
  simp [ValidateToken, parseWithClaims, halg, hexp, hnbf, hne, hnn]

/-! ### Claims -/

/-- C1: Round-trip — for every valid account, validating the string
produced by issuing an access token for that account succeeds and returns
claims whose subject, user_id, username, email and role exactly equal the
fields of the account, and whose token kind equals "access". -/
theorem validate_generateAccess_roundTrip (cfg : JWTConfig) (user : User)
    (now : Int) (h : 0 < cfg.accessTokenExpire) :
    ValidateToken cfg.secret now (GenerateAccessToken cfg user now) =
      Except.ok
        { user_id := user.id, username := user.username, email := user.email,
          role := user.role, token_type := TokenTypeAccess,
          issuer := cfg.issuer, subject := user.id,
          issuedAt := Option.some now,
          expiresAt := Option.some (now + cfg.AccessTokenExpireDuration),
          notBefore := Option.some now } := by
  have hd : 0 < cfg.AccessTokenExpireDuration := by
    simp only [JWTConfig.AccessTokenExpireDuration, secondsPerHour]
    omega
  have h1 : ¬ (now + cfg.AccessTokenExpireDuration ≤ now) := by omega
  have h2 : ¬ (now < now) := by omega
  simp [GenerateAccessToken, generateToken, ValidateToken, parseWithClaims,
    Alg.isHMAC, h1, h2]

/-- Witness for C1: cfg0 and alice at now = 5. -/
theorem validate_generateAccess_roundTrip_witness :
    0 < cfg0.accessTokenExpire ∧
    ValidateToken cfg0.secret 5 (GenerateAccessToken cfg0 alice 5) =
      Except.ok
        { user_id := alice.id, username := alice.username, email := alice.email,
          role := alice.role, token_type := TokenTypeAccess,
          issuer := cfg0.issuer, subject := alice.id,
          issuedAt := Option.some 5,
          expiresAt := Option.some (5 + cfg0.AccessTokenExpireDuration),
          notBefore := Option.some 5 } :=
  ⟨by decide, validate_generateAccess_roundTrip cfg0 alice 5 (by decide)⟩

/-- C3: Expiry boundary with no grace window — a correctly signed token
(HMAC algorithm, signature over the configured secret, expiry and
not-before claims present) is accepted iff not-before ≤ now < expires-at;
a past expiry is classified ErrTokenExpired; a future expiry together with
a past not-before validates successfully. -/
theorem expiry_boundary (secret : String) (now : Int) (alg : Alg)
    (c : TokenClaims) (halg : alg.isHMAC = true) (e n : Int)
    (hexp : c.expiresAt = Option.some e) (hnbf : c.notBefore = Option.some n) :
    ((∃ c2, ValidateToken secret now
        (TokenString.token alg c (Sig.mk alg secret c)) = Except.ok c2) ↔
      (n ≤ now ∧ now < e)) ∧
    (e ≤ now →
      ValidateToken secret now (TokenString.token alg c (Sig.mk alg secret c)) =
        Except.error ErrTokenExpired) ∧
    (n ≤ now → now < e →
      ValidateToken secret now (TokenString.token alg c (Sig.mk alg secret c)) =
        Except.ok c) := by
  have key : ValidateToken secret now
      (TokenString.token alg c (Sig.mk alg secret c)) =
      if e ≤ now then Except.error ErrTokenExpired
      else if now < n then
        Except.error (ErrInvalidToken.withDetail "令牌尚未生效")
      else Except.ok c := by
    by_cases hb1 : e ≤ now <;> by_cases hb2 : now < n <;>
      simp [ValidateToken, parseWithClaims, handleParseError, halg, hexp, hnbf,
        hb1, hb2]
  refine ⟨⟨?_, ?_⟩, ?_, ?_⟩
  · rintro ⟨c2, hc2⟩
    rw [key] at hc2
    by_cases hb1 : e ≤ now
    · simp [hb1] at hc2
    · by_cases hb2 : now < n
      · simp [hb1, hb2] at hc2
      · omega
  · rintro ⟨hb2, hb1⟩
    rw [key]
    have hx : ¬ (e ≤ now) := by omega
    have h2 : ¬ (now < n) := by omega
    simp [hx, h2]
  · intro hb1
    rw [key]
    simp [hb1]
  · intro hb2 hb1
    rw [key]
    have : ¬ (e ≤ now) := by omega
    have h2 : ¬ (now < n) := by omega
    simp [this, h2]

/-- Witness for C3: the refresh fixture token, rejected as expired at
now = 200 and accepted at now = 5. -/
theorem expiry_boundary_witness :
    ValidateToken "test-secret" 200
      (TokenString.token Alg.HS256 refreshClaims0
        (Sig.mk Alg.HS256 "test-secret" refreshClaims0)) =
      Except.error ErrTokenExpired ∧
    ValidateToken "test-secret" 5
      (TokenString.token Alg.HS256 refreshClaims0
        (Sig.mk Alg.HS256 "test-secret" refreshClaims0)) =
      Except.ok refreshClaims0 :=
  ⟨(expiry_boundary "test-secret" 200 Alg.HS256 refreshClaims0 (by decide)
      100 0 (by decide) (by decide)).2.1 (by decide),
   (expiry_boundary "test-secret" 5 Alg.HS256 refreshClaims0 (by decide)
      100 0 (by decide) (by decide)).2.2 (by decide) (by decide)⟩

/-- C4 counterexample: a token signed with RS256 (outside the HMAC family)
is rejected, but ValidateToken classifies it as the generic ErrInvalidToken,
not as ErrTokenMalformed as the claim states: the keyfunc error is wrapped
by the v5 parser under jwt.ErrTokenUnverifiable, which none of the
errors.Is checks of handleParseError match. -/
theorem alg_substitution_cex :
    ValidateToken "test-secret" 5
      (TokenString.token Alg.RS256 refreshClaims0
        (Sig.mk Alg.RS256 "test-secret" refreshClaims0)) =
      Except.error ErrInvalidToken ∧
    ErrInvalidToken ≠ ErrTokenMalformed := by
  constructor
  · simp [ValidateToken, parseWithClaims, handleParseError, Alg.isHMAC]
  · decide

/-- C4 (amended): for every token string carrying an algorithm outside the
expected HMAC family (including unsigned/"none"), ValidateToken never
accepts it; the returned classification is the generic ErrInvalidToken
(token-invalid), not ErrTokenMalformed. -/
theorem alg_substitution_rejected (secret : String) (now : Int) (alg : Alg)
    (c : TokenClaims) (sig : Sig) (halg : alg.isHMAC = false) :
    ValidateToken secret now (TokenString.token alg c sig) =
      Except.error ErrInvalidToken := by
  simp [ValidateToken, parseWithClaims, handleParseError, halg]

/-- Witness for C4: an unsigned ("none" algorithm) token. -/
theorem alg_substitution_rejected_witness :
    ValidateToken "test-secret" 5
      (TokenString.token Alg.noneAlg refreshClaims0
        (Sig.mk Alg.noneAlg "forged" refreshClaims0)) =
      Except.error ErrInvalidToken :=
  alg_substitution_rejected "test-secret" 5 Alg.noneAlg refreshClaims0
    (Sig.mk Alg.noneAlg "forged" refreshClaims0) (by decide)

/-- C2: Kind isolation — a correctly signed, in-window token whose claims
carry kind "refresh" is rejected by RequireAuth with a 401 response, and a
correctly signed, in-window token whose claims carry kind "access" is
rejected by RefreshToken with an invalid-token classification. -/
theorem kind_isolation (secret : String) (cfg : JWTConfig) (db : DB)
    (now : Int) (alg alg2 : Alg) (c c2 : TokenClaims)
    (halg : alg.isHMAC = true) (halg2 : alg2.isHMAC = true)
    (hkind : c.token_type = TokenTypeRefresh)
    (hkind2 : c2.token_type = TokenTypeAccess)
    (e n : Int) (hexp : c.expiresAt = Option.some e)
    (hnbf : c.notBefore = Option.some n) (hw1 : now < e) (hw2 : n ≤ now)
    (e2 n2 : Int) (hexp2 : c2.expiresAt = Option.some e2)
    (hnbf2 : c2.notBefore = Option.some n2) (hw3 : now < e2) (hw4 : n2 ≤ now) :
    RequireAuth secret now
      (Header.bearerToken (TokenString.token alg c (Sig.mk alg secret c))) =
      AuthOutcome.rejected 401 "请使用访问令牌" ∧
    RefreshToken cfg db now
      (TokenString.token alg2 c2 (Sig.mk alg2 cfg.secret c2)) =
      Except.error (ErrInvalidToken.withDetail "不是有效的刷新令牌") := by
  have hv := validateToken_ok_of_window secret now alg c halg e n hexp hnbf
    hw1 hw2
  have hv2 := validateToken_ok_of_window cfg.secret now alg2 c2 halg2 e2 n2
    hexp2 hnbf2 hw3 hw4
  constructor
  · simp [RequireAuth, extractToken, hv, TokenClaims.IsAccessToken, hkind,
      TokenTypeAccess, TokenTypeRefresh]
  · simp [RefreshToken, hv2, hkind2, TokenTypeAccess, TokenTypeRefresh]

/-- Witness for C2: fixture refresh and access tokens at now = 5. -/
theorem kind_isolation_witness :
    RequireAuth "test-secret" 5
      (Header.bearerToken (TokenString.token Alg.HS256 refreshClaims0
        (Sig.mk Alg.HS256 "test-secret" refreshClaims0))) =
      AuthOutcome.rejected 401 "请使用访问令牌" ∧
    RefreshToken cfg0 db0 5
      (TokenString.token Alg.HS256 accessClaims0
        (Sig.mk Alg.HS256 cfg0.secret accessClaims0)) =
      Except.error (ErrInvalidToken.withDetail "不是有效的刷新令牌") :=
  kind_isolation "test-secret" cfg0 db0 5 Alg.HS256 Alg.HS256 refreshClaims0
    accessClaims0 (by decide) (by decide) (by decide) (by decide)
    100 0 (by decide) (by decide) (by decide) (by decide)
    100 0 (by decide) (by decide) (by decide) (by decide)

/-- C5: Credential opacity — a lookup miss among non-deleted accounts and a
password mismatch on an existing non-disabled account both return the
identical ErrInvalidCredential value, so the two failure causes are
indistinguishable to the caller. -/
theorem credential_opacity (checkPw : String → String → Bool)
    (cfg : JWTConfig) (db : DB) (nowA nowB : Int) (reqA reqB : LoginRequest)
    (ipA ipB : String) (user : User)
    (hmiss : db.getByUsernameOrEmail reqA.username =
      Except.error ErrUserNotFound)
    (hhit : db.getByUsernameOrEmail reqB.username = Except.ok user)
    (hact : user.IsDisabled = false)
    (hpw : checkPw reqB.password user.password = false) :
    (Login checkPw cfg db nowA reqA ipA).2 =
      Except.error ErrInvalidCredential ∧
    (Login checkPw cfg db nowB reqB ipB).2 =
      Except.error ErrInvalidCredential := by
  constructor
  · simp [Login, hmiss, ErrUserNotFound, CodeUserNotFound]
  · simp [Login, hhit, hact, hpw]

/-- Witness for C5: login as the unknown "mallory" and as "alice" with a
wrong password, against the fixture store. -/
theorem credential_opacity_witness :
    (Login checkPw0 cfg0 db0 5
      { username := "mallory", password := "anything" } "9.9.9.9").2 =
      Except.error ErrInvalidCredential ∧
    (Login checkPw0 cfg0 db0 5
      { username := "alice", password := "wrongpassword" } "9.9.9.9").2 =
      Except.error ErrInvalidCredential :=
  credential_opacity checkPw0 cfg0 db0 5 5
    { username := "mallory", password := "anything" }
    { username := "alice", password := "wrongpassword" }
    "9.9.9.9" "9.9.9.9" alice (by rfl) (by rfl) (by decide) (by decide)

/-- C6: Disabled-account precedence — a login attempt that resolves to a
disabled account returns ErrUserDisabled for every supplied password: the
status check runs before the password comparison. -/
theorem disabled_precedence (checkPw : String → String → Bool)
    (cfg : JWTConfig) (db : DB) (now : Int) (req : LoginRequest)
    (ip : String) (user : User)
    (hhit : db.getByUsernameOrEmail req.username = Except.ok user)
    (hdis : user.IsDisabled = true) :
    (Login checkPw cfg db now req ip).2 = Except.error ErrUserDisabled := by
  simp [Login, hhit, hdis]

/-- Witness for C6: disabled fixture user dave, once with the correct
password and once with a wrong one. -/
theorem disabled_precedence_witness :
    (Login checkPw0 cfg0 db0 5
      { username := "dave", password := "davepw" } "8.8.8.8").2 =
      Except.error ErrUserDisabled ∧
    (Login checkPw0 cfg0 db0 5
      { username := "dave", password := "nope" } "8.8.8.8").2 =
      Except.error ErrUserDisabled :=
  ⟨disabled_precedence checkPw0 cfg0 db0 5
      { username := "dave", password := "davepw" } "8.8.8.8" dave
      (by rfl) (by decide),
   disabled_precedence checkPw0 cfg0 db0 5
      { username := "dave", password := "nope" } "8.8.8.8" dave
      (by rfl) (by decide)⟩

/-- C7: changePassword atomicity — when the supplied old password does not
verify against the stored hash, UpdatePassword returns the distinct
ErrInvalidPassword (not ErrInvalidCredential) and the store is unchanged
(no password-update write), so a subsequent login with the current
password still succeeds. -/
theorem change_password_wrong_old (checkPw : String → String → Bool)
    (hashPw : String → String) (db : DB) (id : String)
    (req : ChangePasswordRequest) (user : User)
    (hget : db.getByID id = Except.ok user)
    (hbad : checkPw req.oldPassword user.password = false) :
    UpdatePassword checkPw hashPw db id req =
      (db, Except.error ErrInvalidPassword) ∧
    ErrInvalidPassword ≠ ErrInvalidCredential ∧
    (∀ (cfg : JWTConfig) (now : Int) (lreq : LoginRequest) (ip : String),
      db.getByUsernameOrEmail lreq.username = Except.ok user →
      user.IsDisabled = false →
      checkPw lreq.password user.password = true →
      (Login checkPw cfg db now lreq ip).2 =
        Except.ok
          { accessToken := GenerateAccessToken cfg user now
            refreshToken := GenerateRefreshToken cfg user now
            tokenType := "Bearer"
            expiresIn := cfg.AccessTokenExpireDuration
            user := user.toResponse }) := by
  refine ⟨?_, by decide, ?_⟩
  · simp [UpdatePassword, hget, hbad]
  · intro cfg now lreq ip hh hd hp
    simp [Login, hh, hd, hp]

/-- Witness for C7: wrong old password for alice leaves db0 unchanged and
classifies ErrInvalidPassword; logging in with the current password on the
unchanged store succeeds. -/
theorem change_password_wrong_old_witness :
    UpdatePassword checkPw0 hashPw0 db0 "u1"
      { oldPassword := "guess", newPassword := "newpw123" } =
      (db0, Except.error ErrInvalidPassword) ∧
    (Login checkPw0 cfg0 db0 5
      { username := "alice", password := "pw123456" } "1.2.3.4").2 =
      Except.ok
        { accessToken := GenerateAccessToken cfg0 alice 5
          refreshToken := GenerateRefreshToken cfg0 alice 5
          tokenType := "Bearer"
          expiresIn := cfg0.AccessTokenExpireDuration
          user := alice.toResponse } :=
  ⟨(change_password_wrong_old checkPw0 hashPw0 db0 "u1"
      { oldPassword := "guess", newPassword := "newpw123" } alice
      (by rfl) (by decide)).1,
   (change_password_wrong_old checkPw0 hashPw0 db0 "u1"
      { oldPassword := "guess", newPassword := "newpw123" } alice
      (by rfl) (by decide)).2.2 cfg0 5
      { username := "alice", password := "pw123456" } "1.2.3.4"
      (by rfl) (by decide) (by decide)⟩

/-- C8: Refresh flow postcondition — for a token that validates with kind
"refresh" and whose subject claim carries the account id, RefreshToken
re-fetches the current account by that id, rejects with ErrUserDisabled
when the re-fetched account is disabled, and otherwise succeeds with a
newly issued access token only: the refresh_token field of the response
stays empty and no new refresh token is issued. -/
theorem refresh_flow (cfg : JWTConfig) (db : DB) (now : Int)
    (tok : TokenString) (c : TokenClaims) (user : User)
    (hval : ValidateToken cfg.secret now tok = Except.ok c)
    (hkind : c.token_type = TokenTypeRefresh)
    (hsub : c.subject = c.user_id)
    (hget : db.getByID c.subject = Except.ok user) :
    (user.IsDisabled = true →
      RefreshToken cfg db now tok = Except.error ErrUserDisabled) ∧
    (user.IsDisabled = false →
      RefreshToken cfg db now tok =
        Except.ok
          { accessToken := GenerateAccessToken cfg user now
            refreshToken := Option.none
            tokenType := "Bearer"
            expiresIn := cfg.AccessTokenExpireDuration }) := by
  rw [hsub] at hget
  constructor
  · intro hdis
    simp [RefreshToken, hval, hkind, hget, hdis]
  · intro hact
    simp [RefreshToken, hval, hkind, hget, hact]

/-- Witness for C8: the fixture refresh tokens of active alice (new access
token, empty refresh_token field) and of disabled dave (rejected). -/
theorem refresh_flow_witness :
    RefreshToken cfg0 db0 5
      (TokenString.token Alg.HS256 refreshClaims0
        (Sig.mk Alg.HS256 "test-secret" refreshClaims0)) =
      Except.ok
        { accessToken := GenerateAccessToken cfg0 alice 5
          refreshToken := Option.none
          tokenType := "Bearer"
          expiresIn := cfg0.AccessTokenExpireDuration } ∧
    RefreshToken cfg0 db0 5
      (TokenString.token Alg.HS256 refreshClaimsD
        (Sig.mk Alg.HS256 "test-secret" refreshClaimsD)) =
      Except.error ErrUserDisabled :=
  ⟨(refresh_flow cfg0 db0 5
      (TokenString.token Alg.HS256 refreshClaims0
        (Sig.mk Alg.HS256 "test-secret" refreshClaims0))
      refreshClaims0 alice (by rfl) (by rfl) (by rfl) (by rfl)).2 (by decide),
   (refresh_flow cfg0 db0 5
      (TokenString.token Alg.HS256 refreshClaimsD
        (Sig.mk Alg.HS256 "test-secret" refreshClaimsD))
      refreshClaimsD dave (by rfl) (by rfl) (by rfl) (by rfl)).1 (by decide)⟩

/-- C9: Registration conflict classification — a username already used
among non-deleted accounts yields ErrUsernameExists; a free username with
an already-used email yields ErrEmailAlreadyUsed; in both cases the store
is returned unchanged (no account was created). -/
theorem register_conflicts (hashPw : String → String) (newId : String)
    (db : DB) (req : RegisterRequest) :
    (db.existsByUsername req.username = true →
      Register hashPw newId db req = (db, Except.error ErrUsernameExists)) ∧
    (db.existsByUsername req.username = false →
      db.existsByEmail req.email = true →
      Register hashPw newId db req = (db, Except.error ErrEmailAlreadyUsed)) := by
  constructor
  · intro h1
    simp [Register, h1]
  · intro h1 h2
    simp [Register, h1, h2]

/-- Witness for C9: registering with the taken username "alice", then with
a fresh username but the taken email "alice@x.com". -/
theorem register_conflicts_witness :
    Register hashPw0 "u9" db0
      { username := "alice", email := "new@x.com", password := "pw123456" } =
      (db0, Except.error ErrUsernameExists) ∧
    Register hashPw0 "u9" db0
      { username := "newguy", email := "alice@x.com", password := "pw123456" } =
      (db0, Except.error ErrEmailAlreadyUsed) :=
  ⟨(register_conflicts hashPw0 "u9" db0
      { username := "alice", email := "new@x.com", password := "pw123456" }).1
      (by decide),
   (register_conflicts hashPw0 "u9" db0
      { username := "newguy", email := "alice@x.com",
        password := "pw123456" }).2 (by decide) (by decide)⟩

/-- C10: Issuer is never checked at validation — a correctly signed HMAC
token inside its validity window is accepted for every value of its issuer
claim; the issuer set at issuance is not compared against the configured
issuer. -/
theorem issuer_not_checked (secret : String) (now : Int) (alg : Alg)
    (c : TokenClaims) (halg : alg.isHMAC = true) (e n : Int)
    (hexp : c.expiresAt = Option.some e) (hnbf : c.notBefore = Option.some n)
    (h1 : now < e) (h2 : n ≤ now) :
    ∀ iss : String,
      ValidateToken secret now
        (TokenString.token alg { c with issuer := iss }
          (Sig.mk alg secret { c with issuer := iss })) =
        Except.ok { c with issuer := iss } := by
  intro iss
  exact validateToken_ok_of_window secret now alg { c with issuer := iss }
    halg e n (by simpa using hexp) (by simpa using hnbf) h1 h2

/-- Witness for C10: the fixture claims accepted with a foreign issuer. -/
theorem issuer_not_checked_witness :
    ValidateToken "test-secret" 5
      (TokenString.token Alg.HS256 { refreshClaims0 with issuer := "evil" }
        (Sig.mk Alg.HS256 "test-secret"
          { refreshClaims0 with issuer := "evil" })) =
      Except.ok { refreshClaims0 with issuer := "evil" } :=
  issuer_not_checked "test-secret" 5 Alg.HS256 refreshClaims0 (by decide)
    100 0 (by rfl) (by rfl) (by decide) (by decide) "evil"

end GoUserApi
